import Mathlib

/-!
Verification of the swipe-shop client logic: a shallow embedding of the
swipe decision pipeline (ProductCard drag handling, the Swipe page
handleSwipe / handleKeyPress, the feed and seller product filters, the
seller analytics aggregation, the cart checkout, and the saved-items
move-to-cart flow), followed by theorems settling the specified
behavioural claims.
-/

namespace SwipeShop

/-- A swipe decision direction, as produced by the card gesture. -/
inductive Direction
  | left
  | right
deriving DecidableEq, Repr

/-- The action stored in a swipe_interactions row. -/
inductive Action
  | left
  | right
  | purchased
deriving DecidableEq, Repr

/-- A direction is logged verbatim as the interaction action. -/
def Direction.toAction : Direction → Action
  | .left => .left
  | .right => .right

/-- A product row, as fetched by the feed and the seller dashboard. -/
structure Product where
  id : String
  name : String
  description : String
  price : ℚ
  imageUrl : String
deriving DecidableEq, Repr

/-- A cart_items row (the id column is never consulted by the flows modelled). -/
structure CartRow where
  user : String
  product : String
  quantity : Nat
deriving DecidableEq, Repr

/-- A saved_items row; the id is needed for delete-by-id in the saved view. -/
structure SavedRow where
  id : String
  user : String
  product : String
deriving DecidableEq, Repr

/-- A swipe_interactions row as inserted by the client. -/
structure InteractionRec where
  user : String
  product : String
  action : Action
deriving DecidableEq, Repr

/-- ProductCard.handleDragEnd: on pointer release with horizontal offset
`offsetX`, invoke the swipe callback with a direction iff the absolute
offset exceeds 100; right when positive, left otherwise. `none` models
"no callback invoked". -/
def handleDragEnd (offsetX : ℚ) : Option Direction :=
  if 100 < |offsetX| then some (if 0 < offsetX then .right else .left) else none

/-- JS String.prototype.trim: strip leading and trailing whitespace. -/
def jsTrim (s : String) : String :=
  ⟨((s.data.dropWhile Char.isWhitespace).reverse.dropWhile Char.isWhitespace).reverse⟩

/-- JS String.prototype.toLowerCase (ASCII-faithful character map). -/
def jsToLower (s : String) : String :=
  ⟨s.data.map Char.toLower⟩

/-- The static deny-list of known-bad product names, shared verbatim by the
feed page and the seller dashboard (each maps it through toLowerCase). -/
def removedNames : List String :=
  ["yes", "hr", "slim jean", "ripped jeans", "knit sweater", "trechn coart",
    "classic white shirt", "wireless headphones"].map (fun n => jsToLower n)

/-- The seen-set deduplication loop shared by both fetchProducts
implementations: keep a product iff its trimmed lowercased name has not
been seen yet (first occurrence wins). -/
def dedupByTrimmedName : List Product → List String → List Product
  | [], _ => []
  | p :: ps, seen =>
    let key := jsToLower (jsTrim p.name)
    if seen.contains key then dedupByTrimmedName ps seen
    else p :: dedupByTrimmedName ps (key :: seen)

/-- Swipe page fetchProducts post-processing: drop products whose TRIMMED
lowercased name is on the deny-list, then dedup by trimmed lowercased
name. -/
def fetchProductsFeed (data : List Product) : List Product :=
  dedupByTrimmedName
    (data.filter (fun p => !(removedNames.contains (jsToLower (jsTrim p.name))))) []

/-- Seller page fetchProducts post-processing: drop products whose
UNTRIMMED lowercased name is on the deny-list, then dedup by trimmed
lowercased name. -/
def fetchProductsSeller (data : List Product) : List Product :=
  dedupByTrimmedName
    (data.filter (fun p => !(removedNames.contains (jsToLower p.name)))) []

/-- Local client state of the Swipe page together with the remote rows it
mutates: the fetched product list, the per-session swiped set, and the
three backing tables. -/
structure SwipeState where
  products : List Product
  swiped : List String
  interactions : List InteractionRec
  cart : List CartRow
  saved : List SavedRow
deriving DecidableEq, Repr

/-- The (user_id, product_id) equality test used by the cart queries. -/
def cartPair (uid pid : String) (r : CartRow) : Bool :=
  r.user == uid && r.product == pid

/-- The (user_id, product_id) equality test used by the saved-items queries. -/
def savedPair (uid pid : String) (r : SavedRow) : Bool :=
  r.user == uid && r.product == pid

/-- setSwipedProducts(prev => new Set(prev).add(productId)): set insertion. -/
def markSwiped (pid : String) (swiped : List String) : List String :=
  if swiped.contains pid then swiped else pid :: swiped

/-- Right-swipe cart write of the newest swipe flow: select the pair with
limit 1; insert a quantity-1 row only when nothing came back. -/
def rightSwipeCart (uid pid : String) (db : List CartRow) : List CartRow :=
  let existing := (db.filter (cartPair uid pid)).take 1
  if existing.isEmpty then db ++ [⟨uid, pid, 1⟩] else db

/-- Left-swipe delete step: remove every saved row of the pair. -/
def leftSwipeDelete (uid pid : String) (db : List SavedRow) : List SavedRow :=
  db.filter (fun r => !(savedPair uid pid r))

/-- Left-swipe replace of the newest swipe flow: delete the rows of the pair,
then insert a fresh row (gid models the generated row id). -/
def leftSwipeSaved (gid uid pid : String) (db : List SavedRow) : List SavedRow :=
  leftSwipeDelete uid pid db ++ [⟨gid, uid, pid⟩]

/-- handleSwipe of the newest Swipe page, with an authenticated session
uid: mark the product as swiped, append the interaction record (logOk
models the insert succeeding; its error is never read), then perform the
side effect of the direction. delOk / writeOk model success of the saved-items
delete and of the cart/saved insert; on failure the code only raises a
toast and leaves the row state as it was. -/
def handleSwipe (uid pid gid : String) (dir : Direction)
    (logOk delOk writeOk : Bool) (s : SwipeState) : SwipeState :=
  let s1 := { s with swiped := markSwiped pid s.swiped }
  let s2 := if logOk then
      { s1 with interactions := s1.interactions ++ [⟨uid, pid, dir.toAction⟩] }
    else s1
  match dir with
  | .right =>
    if ((s2.cart.filter (cartPair uid pid)).take 1).isEmpty then
      if writeOk then { s2 with cart := s2.cart ++ [⟨uid, pid, 1⟩] } else s2
    else s2
  | .left =>
    let s3 := if delOk then { s2 with saved := leftSwipeDelete uid pid s2.saved } else s2
    if writeOk then { s3 with saved := s3.saved ++ [⟨gid, uid, pid⟩] } else s3

/-- visibleProducts = products.filter(p => !swipedProducts.has(p.id)). -/
def visibleProducts (s : SwipeState) : List Product :=
  s.products.filter (fun p => !(s.swiped.contains p.id))

/-- handleKeyPress: ArrowLeft / ArrowRight swipe the first visible
product through the same handleSwipe pipeline; with no visible product
the handler returns before doing anything; the ArrowDown / ArrowUp
branch only scrolls and every other key falls through, leaving the
state untouched. -/
def handleKeyPress (uid gid key : String) (logOk delOk writeOk : Bool)
    (s : SwipeState) : SwipeState :=
  match visibleProducts s with
  | [] => s
  | first :: _ =>
    if key == "ArrowLeft" then handleSwipe uid first.id gid .left logOk delOk writeOk s
    else if key == "ArrowRight" then handleSwipe uid first.id gid .right logOk delOk writeOk s
    else s

/-- The ordered client-side events a single handleSwipe call issues:
the local swiped-set update, then the interaction-log insert, then the
reads and writes of the direction. -/
inductive DBEvent
  | markSwipedEv (pid : String)
  | insertInteraction (uid pid : String) (a : Action)
  | selectCart (uid pid : String)
  | insertCart (uid pid : String) (q : Nat)
  | deleteSaved (uid pid : String)
  | insertSaved (uid pid : String)
  | deleteCartUser (uid : String)
deriving DecidableEq, Repr

/-- Which events are cart/saved-items writes (the decision side effect). -/
def DBEvent.isCartSaveWrite : DBEvent → Bool
  | .insertCart _ _ _ => true
  | .deleteSaved _ _ => true
  | .insertSaved _ _ => true
  | .deleteCartUser _ => true
  | _ => false

/-- Which events are persistence calls at all (everything but the local
swiped-set update). -/
def DBEvent.isPersistenceCall : DBEvent → Bool
  | .markSwipedEv _ => false
  | _ => true

/-- The event sequence of one handleSwipe call, in program order. -/
def handleSwipeEvents (uid pid : String) (dir : Direction) (s : SwipeState) :
    List DBEvent :=
  [.markSwipedEv pid, .insertInteraction uid pid dir.toAction] ++
    (match dir with
     | .right =>
       .selectCart uid pid ::
         (if ((s.cart.filter (cartPair uid pid)).take 1).isEmpty
          then [.insertCart uid pid 1] else [])
     | .left => [.deleteSaved uid pid, .insertSaved uid pid])

/-- One fetched analytics record: a swipe_interactions row inner-joined
to its product (only the action and the joined price are consumed). -/
structure SellerInteraction where
  action : Action
  price : ℚ
deriving DecidableEq, Repr

/-- The analytics aggregate computed by the seller dashboard. -/
structure Analytics where
  totalViews : Nat
  totalSwipesRight : Nat
  totalSwipesLeft : Nat
  totalPurchases : Nat
  totalRevenue : ℚ
deriving DecidableEq, Repr

/-- fetchAnalytics aggregation over the fetched records. -/
def fetchAnalytics (data : List SellerInteraction) : Analytics :=
  let purchases := data.filter (fun s => s.action == .purchased)
  { totalViews := data.length
    totalSwipesRight := (data.filter (fun s => s.action == .right)).length
    totalSwipesLeft := (data.filter (fun s => s.action == .left)).length
    totalPurchases := purchases.length
    totalRevenue := purchases.foldl (fun sum s => sum + s.price) 0 }

/-- toFixed(1) on a non-negative value: round to the nearest tenth, ties
to the larger value. -/
def round1 (q : ℚ) : ℚ := (⌊q * 10 + 1 / 2⌋ : ℤ) / 10

/-- conversionRate = totalViews > 0 ? ((right / views) * 100).toFixed(1) : "0",
read as a number. -/
def conversionRate (a : Analytics) : ℚ :=
  if 0 < a.totalViews then
    round1 ((a.totalSwipesRight : ℚ) / (a.totalViews : ℚ) * 100)
  else 0

/-- The rows the Cart page touches: the cart table and the interaction log. -/
structure CartPageState where
  cart : List CartRow
  interactions : List InteractionRec
deriving DecidableEq, Repr

/-- The purchase records that actually land during checkout: one per cart
line whose individual insert succeeded (oks holds the outcome of each insert,
zipped positionally with the fetched cart lines). -/
def purchaseInserts (uid : String) (items : List String) (oks : List Bool) :
    List InteractionRec :=
  ((items.zip oks).filter (fun x => x.snd)).map (fun x => ⟨uid, x.fst, Action.purchased⟩)

/-- checkout: return early on an empty fetched cart; otherwise insert one
purchased record per cart line, continuing past failures, then delete all
of the cart rows of the user regardless of the insert outcomes. -/
def checkout (uid : String) (items : List String) (oks : List Bool)
    (s : CartPageState) : CartPageState :=
  if items.isEmpty then s
  else
    { interactions := s.interactions ++ purchaseInserts uid items oks
      cart := s.cart.filter (fun r => !(r.user == uid)) }

/-- The persistence calls checkout issues for a non-empty cart, in program
order: one interaction insert attempt per fetched cart line, then one
delete of all cart rows of the user. -/
def checkoutEvents (uid : String) (items : List String) : List DBEvent :=
  (items.map (fun pid => DBEvent.insertInteraction uid pid .purchased)) ++
    [.deleteCartUser uid]

/-- Recognizes an interaction-log insert carrying action purchased. -/
def DBEvent.isPurchaseInsert : DBEvent → Bool
  | .insertInteraction _ _ a => a == Action.purchased
  | _ => false

/-- The rows the SavedItems page touches. -/
structure SavedPageState where
  cart : List CartRow
  saved : List SavedRow
deriving DecidableEq, Repr

/-- The cart upsert issued by move-to-cart, keyed on the (user, product)
uniqueness of cart_items: merge the quantity onto an existing pair row,
or insert a fresh row. -/
def upsertCart (uid pid : String) (q : Nat) (db : List CartRow) : List CartRow :=
  if db.any (cartPair uid pid) then
    db.map (fun r => if cartPair uid pid r then { r with quantity := q } else r)
  else db ++ [⟨uid, pid, q⟩]

/-- handleRemove: unconditional saved_items delete by row id. -/
def handleRemove (sid : String) (db : List SavedRow) : List SavedRow :=
  db.filter (fun r => !(r.id == sid))

/-- handleMoveToCart: upsert the cart row; only if that succeeded
(cartOk), delete the saved row via handleRemove (delOk models that
delete succeeding); on upsert failure only a toast is raised and both
tables are left as they were. -/
def handleMoveToCart (uid pid sid : String) (cartOk delOk : Bool)
    (s : SavedPageState) : SavedPageState :=
  if cartOk then
    let s1 : SavedPageState := { s with cart := upsertCart uid pid 1 s.cart }
    if delOk then { s1 with saved := handleRemove sid s1.saved } else s1
  else s

end SwipeShop

namespace SwipeShop

/-- Normal form of the drag-end handler: the two nested tests on the
absolute value and the sign collapse into a three-way split on d. -/
lemma handleDragEnd_eq_splits (d : ℚ) :
    handleDragEnd d =
      if 100 < d then some Direction.right
      else if d < -100 then some Direction.left
      else none := by
  unfold handleDragEnd
  by_cases h1 : 100 < d
  · have ha : 100 < |d| := by
      rw [abs_of_pos (by linarith)]; exact h1
    simp [ha, h1, show (0:ℚ) < d from by linarith]
  · by_cases h2 : d < -100
    · have ha : 100 < |d| := by
        rw [abs_of_neg (by linarith)]; linarith
      simp [ha, h1, h2, not_lt.mpr (show d ≤ 0 from by linarith)]
    · have ha : ¬ (100 < |d|) := by
        rw [not_lt, abs_le]; constructor <;> linarith
      simp [ha, h1, h2]

/-- C1: the card commits a decision iff the released displacement exceeds
100 in absolute value, with direction right exactly when d > 100 (i.e.
d positive among committing displacements), left exactly when d < -100,
and no callback at all when |d| is at most 100. -/
theorem dragEnd_commit_iff (d : ℚ) :
    (handleDragEnd d = some Direction.right ↔ 100 < d) ∧
    (handleDragEnd d = some Direction.left ↔ d < -100) ∧
    (handleDragEnd d = none ↔ |d| ≤ 100) := by
  rw [handleDragEnd_eq_splits]
  by_cases h1 : 100 < d
  · refine ⟨by simp [h1], ?_, ?_⟩
    · simp only [if_pos h1]
      constructor
      · intro h; exact absurd h (by simp)
      · intro h; linarith
    · simp only [if_pos h1]
      constructor
      · intro h; exact absurd h (by simp)
      · intro h; rw [abs_le] at h; linarith
  · by_cases h2 : d < -100
    · refine ⟨?_, by simp [h1, h2], ?_⟩
      · simp only [if_neg h1, if_pos h2]
        constructor
        · intro h; exact absurd h (by simp)
        · intro h; linarith
      · simp only [if_neg h1, if_pos h2]
        constructor
        · intro h; exact absurd h (by simp)
        · intro h; rw [abs_le] at h; linarith
    · refine ⟨?_, ?_, ?_⟩
      · simp only [if_neg h1, if_neg h2]
        constructor
        · intro h; exact absurd h (by simp)
        · intro h; exact absurd h h1
      · simp only [if_neg h1, if_neg h2]
        constructor
        · intro h; exact absurd h (by simp)
        · intro h; exact absurd h h2
      · simp only [if_neg h1, if_neg h2]
        constructor
        · intro _; rw [abs_le]; constructor <;> linarith
        · intro _; trivial

/-- The select-with-limit-1 emptiness test of the cart pre-check is the
negation of a membership test. -/
lemma filter_take_one_isEmpty {α : Type} (p : α → Bool) (l : List α) :
    ((l.filter p).take 1).isEmpty = !(l.any p) := by
  induction l with
  | nil => rfl
  | cons a l ih =>
    by_cases h : p a
    · simp [List.filter_cons, List.any_cons, h]
    · simp [List.filter_cons, List.any_cons, h, ih]

/-- The right-swipe cart write behaves as a guarded insert: a no-op when
the pair already has a row, an append of a quantity-1 row otherwise. -/
lemma rightSwipeCart_eq_guarded (uid pid : String) (l : List CartRow) :
    rightSwipeCart uid pid l =
      if l.any (cartPair uid pid) then l else l ++ [⟨uid, pid, 1⟩] := by
  simp only [rightSwipeCart, filter_take_one_isEmpty]
  cases h : l.any (cartPair uid pid) <;> simp [h]

/-- C2: repeating the right-swipe cart write is idempotent — when a row
for the pair already exists the table is returned unchanged (so no second
row and no quantity change), and when none exists exactly one quantity-1
row is appended. -/
theorem rightSwipe_cart_idempotent (uid pid : String) (db : List CartRow) :
    rightSwipeCart uid pid (rightSwipeCart uid pid db) = rightSwipeCart uid pid db ∧
    rightSwipeCart uid pid db =
      (if db.any (cartPair uid pid) then db else db ++ [⟨uid, pid, 1⟩]) := by
  refine ⟨?_, rightSwipeCart_eq_guarded uid pid db⟩
  by_cases h : db.any (cartPair uid pid) = true
  · simp [rightSwipeCart_eq_guarded, h]
  · have hmem : (db ++ [(⟨uid, pid, 1⟩ : CartRow)]).any (cartPair uid pid) = true := by
      simp [List.any_append, cartPair]
    simp [rightSwipeCart_eq_guarded, h, hmem]

/-- C3: a left-swipe deletes every saved row of the pair and then inserts
a fresh one, so after any left-swipe — on any prior table contents,
including tables already holding the pair — the saved rows for the pair
are exactly the freshly inserted singleton. -/
theorem leftSwipe_saved_exactly_one (gid uid pid : String) (db : List SavedRow) :
    ((leftSwipeSaved gid uid pid db).filter (savedPair uid pid)).length = 1 ∧
    (leftSwipeSaved gid uid pid db).filter (savedPair uid pid) = [⟨gid, uid, pid⟩] := by
  have hfil : (leftSwipeSaved gid uid pid db).filter (savedPair uid pid)
      = [⟨gid, uid, pid⟩] := by
    unfold leftSwipeSaved leftSwipeDelete
    rw [List.filter_append, List.filter_filter]
    have h1 : ∀ r : SavedRow, (savedPair uid pid r && !(savedPair uid pid r)) = false := by
      intro r; cases savedPair uid pid r <;> rfl
    simp only [h1, List.filter_false, List.nil_append]
    simp [savedPair]
  exact ⟨by rw [hfil]; rfl, hfil⟩

/-- C6 counterexample: on a catalog holding a single product named
"Yes " (trailing space), the feed filter denies it (it trims before the
deny-list lookup) while the seller filter keeps it (it does not trim), so
the two filters disagree. -/
theorem seller_feed_filter_counterexample :
    fetchProductsSeller [⟨"p1", "Yes ", "", 0, ""⟩]
      ≠ fetchProductsFeed [⟨"p1", "Yes ", "", 0, ""⟩] := by
  decide

/-- C6 amended: the seller dashboard filter agrees with the feed filter
on every product list whose names carry no leading or trailing
whitespace (both then deny by the same lowercased name and share the
trimmed-lowercased-name dedup); in general they differ only in that the
feed trims the name before the deny-list lookup and the seller does not. -/
theorem seller_feed_filter_agree_on_trimmed (ps : List Product)
    (h : ∀ p ∈ ps, jsTrim p.name = p.name) :
    fetchProductsSeller ps = fetchProductsFeed ps := by
  unfold fetchProductsSeller fetchProductsFeed
  congr 1
  apply List.filter_congr
  intro p hp
  rw [h p hp]

/-- Concrete instance of the amended C6: a two-product catalog with
trim-invariant names passes both filters identically. -/
theorem seller_feed_filter_agree_witness :
    fetchProductsSeller
        [⟨"p1", "Shirt", "", 0, ""⟩, ⟨"p2", "Ripped Jeans", "", 0, ""⟩]
      = fetchProductsFeed
        [⟨"p1", "Shirt", "", 0, ""⟩, ⟨"p2", "Ripped Jeans", "", 0, ""⟩] :=
  seller_feed_filter_agree_on_trimmed _ (by decide)

/-- Whatever the direction and outcome flags, a handleSwipe call leaves
the swiped set as the set-insert of the product id. -/
lemma handleSwipe_swiped (uid pid gid : String) (dir : Direction)
    (logOk delOk writeOk : Bool) (s : SwipeState) :
    (handleSwipe uid pid gid dir logOk delOk writeOk s).swiped
      = markSwiped pid s.swiped := by
  cases dir <;> dsimp only [handleSwipe] <;> split_ifs <;> rfl

/-- Set-insertion puts the inserted id in the set. -/
lemma mem_markSwiped (pid : String) (l : List String) :
    pid ∈ markSwiped pid l := by
  unfold markSwiped
  split
  · next h => simpa using h
  · exact List.mem_cons_self pid l

/-- The first two events of any swipe are the local swiped-set update
followed by the interaction-log insert, whatever the direction. -/
lemma handleSwipeEvents_take_two (uid pid : String) (dir : Direction)
    (s : SwipeState) :
    (handleSwipeEvents uid pid dir s).take 2
      = [.markSwipedEv pid, .insertInteraction uid pid dir.toAction] := by
  cases dir <;> rfl

/-- C4: the interaction-log insert is the first persistence call after
the local swiped-set update — in particular it precedes every cart or
saved-items write of the same decision; when the log insert succeeds its
record survives unchanged whatever the cart/save write outcome; and the
card stays in the swiped set (hence off the feed) in every outcome. -/
theorem swipe_logs_interaction_first (uid pid gid : String) (dir : Direction)
    (logOk delOk writeOk : Bool) (s : SwipeState) :
    (handleSwipeEvents uid pid dir s).get? 1
        = some (.insertInteraction uid pid dir.toAction) ∧
    (∀ i e, (handleSwipeEvents uid pid dir s).get? i = some e →
        e.isCartSaveWrite = true → 1 < i) ∧
    (handleSwipe uid pid gid dir true delOk writeOk s).interactions
        = s.interactions ++ [⟨uid, pid, dir.toAction⟩] ∧
    pid ∈ (handleSwipe uid pid gid dir logOk delOk writeOk s).swiped := by
  refine ⟨?_, ?_, ?_, ?_⟩
  · cases dir <;> rfl
  · intro i e h hw
    by_contra hle
    rw [not_lt] at hle
    have h2 : ([DBEvent.markSwipedEv pid,
        DBEvent.insertInteraction uid pid dir.toAction] : List DBEvent).get? i
          = some e := by
      rw [← handleSwipeEvents_take_two uid pid dir s,
        List.get?_take (show i < 2 by omega)]
      exact h
    interval_cases i
    · simp only [List.get?] at h2
      rw [← Option.some_inj.mp h2] at hw
      simp [DBEvent.isCartSaveWrite] at hw
    · simp only [List.get?] at h2
      rw [← Option.some_inj.mp h2] at hw
      simp [DBEvent.isCartSaveWrite] at hw
  · cases dir <;> dsimp only [handleSwipe] <;> split_ifs <;> first | rfl | simp_all
  · rw [handleSwipe_swiped]
    exact mem_markSwiped pid s.swiped

/-- Concrete instance of C4 on a one-product state with the cart write
failing: the cart insert sits strictly after the log insert in the event
order, and the interaction record is still appended. -/
theorem swipe_logs_interaction_first_witness :
    1 < 3 ∧
    (handleSwipe "u" "p" "g" Direction.right true true false
        ⟨[⟨"p", "Shirt", "", 0, ""⟩], [], [], [], []⟩).interactions
      = [⟨"u", "p", Action.right⟩] :=
  ⟨(swipe_logs_interaction_first "u" "p" "g" Direction.right true true false
      ⟨[⟨"p", "Shirt", "", 0, ""⟩], [], [], [], []⟩).2.1 3
      (DBEvent.insertCart "u" "p" 1) (by rfl) (by rfl),
    (swipe_logs_interaction_first "u" "p" "g" Direction.right true true false
      ⟨[⟨"p", "Shirt", "", 0, ""⟩], [], [], [], []⟩).2.2.1⟩

/-- C9: the swiped-set update is the very first event of a swipe (all
persistence calls come strictly after it), the visible feed is by
definition the fetched list minus the swiped set, and after the swipe —
even when the interaction insert, the saved delete and the cart/save
write all fail — the swiped product no longer appears in the visible
feed. -/
theorem swipe_marks_before_persist (uid pid gid : String) (dir : Direction)
    (logOk delOk writeOk : Bool) (s : SwipeState) :
    (handleSwipeEvents uid pid dir s).get? 0 = some (.markSwipedEv pid) ∧
    (∀ i e, (handleSwipeEvents uid pid dir s).get? i = some e →
        e.isPersistenceCall = true → 0 < i) ∧
    visibleProducts (handleSwipe uid pid gid dir logOk delOk writeOk s)
      = (handleSwipe uid pid gid dir logOk delOk writeOk s).products.filter
          (fun p => !((handleSwipe uid pid gid dir logOk delOk writeOk s).swiped.contains p.id)) ∧
    (∀ p ∈ visibleProducts (handleSwipe uid pid gid dir logOk delOk writeOk s),
        p.id ≠ pid) := by
  refine ⟨?_, ?_, rfl, ?_⟩
  · cases dir <;> rfl
  · intro i e h hw
    by_contra hle
    rw [not_lt, Nat.le_zero] at hle
    subst hle
    have h2 : ([DBEvent.markSwipedEv pid,
        DBEvent.insertInteraction uid pid dir.toAction] : List DBEvent).get? 0
          = some e := by
      rw [← handleSwipeEvents_take_two uid pid dir s,
        List.get?_take (show 0 < 2 by omega)]
      exact h
    simp only [List.get?] at h2
    rw [← Option.some_inj.mp h2] at hw
    simp [DBEvent.isPersistenceCall] at hw
  · intro p hp heq
    rw [visibleProducts, List.mem_filter] at hp
    have hcontains : ((handleSwipe uid pid gid dir logOk delOk writeOk s).swiped.contains p.id)
        = true := by
      rw [heq, handleSwipe_swiped]
      simpa using mem_markSwiped pid s.swiped
    rw [hcontains] at hp
    simp at hp

/-- Concrete instance of C9 on a two-product state with every
persistence call failing: the log insert sits strictly after the local
swiped-set update in the event order, and the remaining visible product
is not the swiped one. -/
theorem swipe_marks_before_persist_witness :
    0 < 1 ∧ ("q" : String) ≠ "p" :=
  ⟨(swipe_marks_before_persist "u" "p" "g" Direction.left false false false
      ⟨[⟨"p", "Shirt", "", 0, ""⟩, ⟨"q", "Hat", "", 0, ""⟩], [], [], [], []⟩).2.1 1
      (DBEvent.insertInteraction "u" "p" Action.left) (by rfl) (by rfl),
    (swipe_marks_before_persist "u" "p" "g" Direction.left false false false
      ⟨[⟨"p", "Shirt", "", 0, ""⟩, ⟨"q", "Hat", "", 0, ""⟩], [], [], [], []⟩).2.2.2
      ⟨"q", "Hat", "", 0, ""⟩ (by decide)⟩

/-- C10: with no visible product an arrow keypress leaves the state
untouched, and otherwise ArrowLeft (resp. ArrowRight) performs exactly
the handleSwipe call a committed left (right) drag on the first visible
product would perform. -/
theorem keypress_swipes_first_visible (uid gid : String)
    (logOk delOk writeOk : Bool) (s : SwipeState) :
    (visibleProducts s = [] →
      ∀ key, handleKeyPress uid gid key logOk delOk writeOk s = s) ∧
    (∀ p rest, visibleProducts s = p :: rest →
      handleKeyPress uid gid "ArrowLeft" logOk delOk writeOk s
          = handleSwipe uid p.id gid .left logOk delOk writeOk s ∧
      handleKeyPress uid gid "ArrowRight" logOk delOk writeOk s
          = handleSwipe uid p.id gid .right logOk delOk writeOk s) := by
  constructor
  · intro h key
    unfold handleKeyPress
    rw [h]
  · intro p rest h
    constructor <;> (unfold handleKeyPress; rw [h]; rfl)

/-- Concrete instance of C10: ArrowLeft on a one-product feed equals the
left swipe of the drag pipeline on that product; on an all-swiped feed the
keypress is a no-op. -/
theorem keypress_swipes_first_visible_witness :
    (handleKeyPress "u" "g" "ArrowLeft" true true true
        ⟨[⟨"p", "Shirt", "", 0, ""⟩], [], [], [], []⟩
      = handleSwipe "u" "p" "g" Direction.left true true true
        ⟨[⟨"p", "Shirt", "", 0, ""⟩], [], [], [], []⟩) ∧
    handleKeyPress "u" "g" "ArrowRight" true true true
        ⟨[⟨"p", "Shirt", "", 0, ""⟩], ["p"], [], [], []⟩
      = ⟨[⟨"p", "Shirt", "", 0, ""⟩], ["p"], [], [], []⟩ :=
  ⟨((keypress_swipes_first_visible "u" "g" true true true
      ⟨[⟨"p", "Shirt", "", 0, ""⟩], [], [], [], []⟩).2
        ⟨"p", "Shirt", "", 0, ""⟩ [] (by decide)).1,
    (keypress_swipes_first_visible "u" "g" true true true
      ⟨[⟨"p", "Shirt", "", 0, ""⟩], ["p"], [], [], []⟩).1 (by decide) "ArrowRight"⟩

/-- C5: checkout on a non-empty fetched cart attempts exactly one
purchased-interaction insert per cart line (the delete of the rows of the user coming last), appends exactly the records of the inserts that
succeeded, and leaves zero cart rows for the user whatever the pattern
of insert failures. -/
theorem checkout_clears_cart (uid : String) (items : List String)
    (oks : List Bool) (s : CartPageState) (hne : items ≠ []) :
    ((checkout uid items oks s).cart.filter (fun r => r.user == uid)).length = 0 ∧
    (checkout uid items oks s).interactions
        = s.interactions ++ purchaseInserts uid items oks ∧
    ((checkoutEvents uid items).filter DBEvent.isPurchaseInsert).length
        = items.length ∧
    (checkoutEvents uid items).getLast? = some (.deleteCartUser uid) := by
  have hemp : items.isEmpty = false := by
    cases items with
    | nil => exact absurd rfl hne
    | cons a t => rfl
  refine ⟨?_, ?_, ?_, ?_⟩
  · rw [checkout, hemp]
    simp only [Bool.false_eq_true, if_false, List.filter_filter]
    have hcond : ∀ r : CartRow, ((r.user == uid) && !(r.user == uid)) = false := by
      intro r; cases r.user == uid <;> rfl
    simp [hcond]
  · rw [checkout, hemp]
    rfl
  · rw [checkoutEvents, List.filter_append, List.filter_map]
    have hcomp : ((DBEvent.isPurchaseInsert ∘ fun pid => DBEvent.insertInteraction uid pid .purchased))
        = fun _ => true := by
      funext pid; rfl
    rw [hcomp]
    simp [DBEvent.isPurchaseInsert]
  · rw [checkoutEvents, List.getLast?_concat]

/-- Concrete instance of C5: a one-line cart whose single purchase insert
fails still checks out to zero cart rows for the user. -/
theorem checkout_clears_cart_witness :
    ((checkout "u" ["p1"] [false] ⟨[⟨"u", "p1", 1⟩], []⟩).cart.filter
        (fun r => r.user == "u")).length = 0 :=
  (checkout_clears_cart "u" ["p1"] [false] ⟨[⟨"u", "p1", 1⟩], []⟩ (by decide)).1

/-- C7: totalViews counts every fetched record regardless of action
(purchases included), totalSwipesRight counts the right-swipe records,
and conversionRate is 0 on zero views and otherwise right / views × 100
rounded to one decimal place. -/
theorem conversionRate_formula (records : List SellerInteraction) :
    (fetchAnalytics records).totalViews = records.length ∧
    (fetchAnalytics records).totalSwipesRight
        = (records.filter (fun r => r.action == Action.right)).length ∧
    conversionRate (fetchAnalytics records)
      = (if records.length = 0 then 0 else
          round1 ((((records.filter (fun r => r.action == Action.right)).length : ℚ)
            / (records.length : ℚ)) * 100)) := by
  refine ⟨rfl, rfl, ?_⟩
  cases records with
  | nil => rfl
  | cons a t =>
    rw [conversionRate]
    have hpos : 0 < (fetchAnalytics (a :: t)).totalViews := by
      simp [fetchAnalytics]
    rw [if_pos hpos]
    have hne : (a :: t).length ≠ 0 := by simp
    rw [if_neg hne]
    rfl

/-- After the cart upsert, a pair previously holding at most one row
holds exactly one row. -/
lemma upsertCart_pair_count (uid pid : String) (q : Nat) (db : List CartRow)
    (hcart : (db.filter (cartPair uid pid)).length ≤ 1) :
    ((upsertCart uid pid q db).filter (cartPair uid pid)).length = 1 := by
  unfold upsertCart
  by_cases hany : db.any (cartPair uid pid) = true
  · rw [if_pos hany, List.filter_map]
    have hcomp : ∀ r ∈ db, ((cartPair uid pid) ∘ fun r =>
        if cartPair uid pid r then { r with quantity := q } else r) r
          = cartPair uid pid r := by
      intro r _
      by_cases hr : cartPair uid pid r = true
      · simp only [Function.comp, hr, if_pos]
        unfold cartPair at hr ⊢
        rw [Bool.and_eq_true] at hr
        simp [hr.1, hr.2]
      · simp only [Function.comp]
        rw [if_neg hr]
    rw [List.filter_congr hcomp, List.length_map]
    have hpos : 0 < (db.filter (cartPair uid pid)).length := by
      rw [← List.countP_eq_length_filter]
      rw [List.countP_pos]
      rw [List.any_eq_true] at hany
      exact hany
    omega
  · rw [if_neg hany, List.filter_append]
    have hnil : db.filter (cartPair uid pid) = [] := by
      rw [List.filter_eq_nil]
      intro r hr hp
      exact hany (List.any_eq_true.mpr ⟨r, hr, hp⟩)
    rw [hnil, List.nil_append]
    simp [cartPair]

/-- C8: move-to-cart with a failing cart upsert leaves both tables
untouched (the saved row is retained — no partial commit); and when the
upsert and the delete succeed, a pair whose saved rows all carry the
clicked row id and whose cart held at most one row (the uniqueness
constraint of the table) ends with zero saved rows and exactly one cart
row. -/
theorem moveToCart_commit_or_retain (uid pid sid : String) (delOk : Bool)
    (s : SavedPageState)
    (hsid : ∀ r ∈ s.saved, savedPair uid pid r = true → r.id = sid)
    (hcart : (s.cart.filter (cartPair uid pid)).length ≤ 1) :
    handleMoveToCart uid pid sid false delOk s = s ∧
    ((handleMoveToCart uid pid sid true true s).saved.filter
        (savedPair uid pid)).length = 0 ∧
    ((handleMoveToCart uid pid sid true true s).cart.filter
        (cartPair uid pid)).length = 1 := by
  refine ⟨rfl, ?_, ?_⟩
  · show ((handleRemove sid s.saved).filter (savedPair uid pid)).length = 0
    unfold handleRemove
    rw [List.filter_filter]
    have hnil : s.saved.filter (fun r => savedPair uid pid r && !(r.id == sid)) = [] := by
      rw [List.filter_eq_nil]
      intro r hr hp
      rw [Bool.and_eq_true] at hp
      have hid : r.id = sid := hsid r hr hp.1
      rw [hid] at hp
      simp at hp
    rw [hnil]
    rfl
  · exact upsertCart_pair_count uid pid 1 s.cart hcart

/-- Concrete instance of C8: moving the only saved row of the pair into
an empty cart ends with zero saved rows and one cart row; with the
upsert failing, the state is untouched. -/
theorem moveToCart_commit_or_retain_witness :
    handleMoveToCart "u" "p" "s1" false true
        ⟨[], [⟨"s1", "u", "p"⟩]⟩ = ⟨[], [⟨"s1", "u", "p"⟩]⟩ ∧
    ((handleMoveToCart "u" "p" "s1" true true
        ⟨[], [⟨"s1", "u", "p"⟩]⟩).saved.filter (savedPair "u" "p")).length = 0 ∧
    ((handleMoveToCart "u" "p" "s1" true true
        ⟨[], [⟨"s1", "u", "p"⟩]⟩).cart.filter (cartPair "u" "p")).length = 1 :=
  moveToCart_commit_or_retain "u" "p" "s1" true ⟨[], [⟨"s1", "u", "p"⟩]⟩
    (by decide) (by decide)

end SwipeShop
